import Mathlib

/-!
Verification development for the `fc_metrics` generator (src/main.rs).

The program reads a Rust source file, parses it with `syn` (an external
black-box parser), extracts `struct` declarations with named public fields
into a map `String -> RustStruct`, links the fixed root structure
`"FirecrackerMetrics"` against that map, lowers each metric group into four
statement lists, and renders them through a fixed `tinytemplate` template.

We shallowly embed the program here.  The `syn` AST is modelled by the
fragment the program inspects: an item is either a struct (with attributes,
an identifier, and fields) or something else; a named field carries its
visibility, identifier, type (of which the program only looks at whether it
is a path type, and then only at the first segment's identifier), and
attributes; an attribute carries the identifier of the first segment of its
path and the `to_string()` of its token stream.  Strings are modelled at the
character level (the Rust code indexes bytes; the two agree on ASCII input,
which covers all the fixed syntax the program manipulates).

Rust `String::pop` / `String::replace_range` can panic (out-of-bounds
range); fallible code is therefore modelled with `Option`, `none` standing
for a panic that aborts the process.
-/

/-- Model of `syn::Attribute`: the identifier of the first path segment
(`attr.path.segments.first().unwrap().ident.to_string()`) and the printed
token stream (`attr.tokens.to_string()`). -/
structure Attr where
  pathIdent : String
  tokens : String
deriving DecidableEq

/-- Model of `syn::Visibility` as the program uses it: public or anything
else. -/
inductive Visibility where
  | pub
  | other
deriving DecidableEq

/-- Model of `syn::Type` as the program uses it: a path type (carrying
`path.segments.first().unwrap().ident.to_string()`) or anything else
(references, generics-free tuples, arrays, ...). -/
inductive SynType where
  | path (firstSegIdent : String)
  | other
deriving DecidableEq

/-- Model of one element of `syn::FieldsNamed.named`. -/
structure NamedField where
  vis : Visibility
  ident : String
  ty : SynType
  attrs : List Attr
deriving DecidableEq

/-- Model of `syn::Fields`: named fields, or anything else (tuple/unit). -/
inductive SynFields where
  | named (fields : List NamedField)
  | other
deriving DecidableEq

/-- Model of `syn::ItemStruct`. -/
structure ItemStruct where
  attrs : List Attr
  ident : String
  fields : SynFields
deriving DecidableEq

/-- Model of `syn::Item`: a struct item or anything else. -/
inductive Item where
  | struct (s : ItemStruct)
  | other
deriving DecidableEq

/-- Model of `syn::File`: the list of top-level items. -/
structure SynFile where
  items : List Item
deriving DecidableEq

/-- `StructField` from main.rs. -/
structure StructField where
  var_name : String
  var_type : String
  comments : List String
deriving DecidableEq

/-- `RustStruct` from main.rs. -/
structure RustStruct where
  comments : List String
  name : String
  fields : List StructField
deriving DecidableEq

/-- `fn strip_comment(s: &mut String) -> &mut String`:
`s.pop()` removes the last character (a no-op on the empty string), then
`s.replace_range(0..=2, "")` removes the first three characters — and
panics when fewer than three remain, which we model as `none`. -/
def strip_comment (s : String) : Option String :=
  let popped := s.data.dropLast
  if popped.length < 3 then none else some (String.mk (popped.drop 3))

/-- `fn json_tag(s: &String) -> String`. -/
def json_tag (s : String) : String :=
  "`json:\"" ++ s ++ "\"`"

/-- `fn to_uppercase(s: &str) -> String`: first character uppercased, rest
unchanged. -/
def to_uppercase (s : String) : String :=
  String.mk ((s.data.take 1).map Char.toUpper ++ s.data.drop 1)

/-- `fn to_lowercase(s: &str) -> String`: first character lowercased, rest
unchanged. -/
def to_lowercase (s : String) : String :=
  String.mk ((s.data.take 1).map Char.toLower ++ s.data.drop 1)

/-- Rust `str::split(sep: char)` on a character list: the (always
non-empty) list of separator-free segments, in order.  `"".split(c)` yields
one empty segment, as in Rust. -/
def splitOnChar (c : Char) : List Char → List (List Char)
  | [] => [[]]
  | x :: xs =>
    if x = c then [] :: splitOnChar c xs
    else
      match splitOnChar c xs with
      | [] => [[x]]
      | seg :: segs => (x :: seg) :: segs

/-- Rust `str::split('_')` on a string. -/
def splitUnderscore (s : String) : List String :=
  (splitOnChar '_' s.data).map String.mk

/-- Rust `str::trim`: drop leading and trailing whitespace. -/
def rustTrim (s : String) : String :=
  String.mk (((s.data.dropWhile Char.isWhitespace).reverse.dropWhile
    Char.isWhitespace).reverse)

/-- `fn rust_field_name_to_go(s: &String) -> String`: split on underscore,
uppercase each segment's first character, join with no separator. -/
def rust_field_name_to_go (s : String) : String :=
  String.join ((splitUnderscore s).map to_uppercase)

/-- `fn go_var_type(s: &String) -> String`. -/
def go_var_type (s : String) : String :=
  if s = "SharedMetric" then "uint64" else s

/-- The doc-comment collection loop used both for struct attributes and for
field attributes in `parse_source_code`: every attribute whose path starts
with `doc` has its token stream run through `strip_comment` and the result
pushed; other attributes are skipped.  A `strip_comment` panic aborts
(`none`). -/
def docComments : List Attr → Option (List String)
  | [] => some []
  | a :: rest =>
    if a.pathIdent = "doc" then
      match strip_comment a.tokens with
      | none => none
      | some c => (docComments rest).map (fun cs => c :: cs)
    else docComments rest

/-- The field loop of `parse_source_code`: skip non-`pub` fields, skip
fields whose type is not a path type, otherwise record name, leading type
segment and doc comments (whose extraction can panic). -/
def parseFields : List NamedField → Option (List StructField)
  | [] => some []
  | nt :: rest =>
    match nt.vis with
    | Visibility.other => parseFields rest
    | Visibility.pub =>
      match nt.ty with
      | SynType.other => parseFields rest
      | SynType.path seg =>
        match docComments nt.attrs with
        | none => none
        | some cs =>
          (parseFields rest).map
            (fun fs => { var_name := nt.ident, var_type := seg, comments := cs } :: fs)

/-- The extracted mapping.  `HashMap<String, RustStruct>` is modelled as an
association list; the program never iterates the map (only `get` lookups),
so only lookup semantics matter. -/
abbrev StructMap : Type := List (String × RustStruct)

/-- `HashMap::insert`: replace an existing binding for the key, else add
one. -/
def insertStruct (l : StructMap) (k : String) (v : RustStruct) : StructMap :=
  match l with
  | [] => [(k, v)]
  | (k', v') :: rest =>
    if k' = k then (k, v) :: rest else (k', v') :: insertStruct rest k v

/-- `HashMap::get`. -/
def lookupStruct (l : StructMap) (k : String) : Option RustStruct :=
  match l with
  | [] => none
  | (k', v) :: rest => if k' = k then some v else lookupStruct rest k

/-- The item loop of `fn parse_source_code(syntax: &syn::File)`, with the
accumulated map.  For a struct item the struct-level doc comments are
collected first (so a malformed doc attribute panics even when the struct
is later skipped), then structs without named fields, or with zero named
fields, are skipped; otherwise the fields are extracted and the struct is
inserted (later declarations overwrite earlier ones with the same name). -/
def parseItems (acc : StructMap) : List Item → Option StructMap
  | [] => some acc
  | Item.other :: rest => parseItems acc rest
  | Item.struct si :: rest =>
    match docComments si.attrs with
    | none => none
    | some struct_comments =>
      match si.fields with
      | SynFields.other => parseItems acc rest
      | SynFields.named nts =>
        if nts.length = 0 then parseItems acc rest
        else
          match parseFields nts with
          | none => none
          | some fs =>
            parseItems
              (insertStruct acc si.ident
                { comments := struct_comments, name := si.ident, fields := fs })
              rest

/-- `fn parse_source_code(syntax: &syn::File) -> HashMap<String, RustStruct>`
(`none` models a panic inside the extraction loop). -/
def parse_source_code (f : SynFile) : Option StructMap :=
  parseItems [] f.items

/-- `RustStruct::metric_var_name`. -/
def metric_var_name (st : RustStruct) : String :=
  to_lowercase st.name

/-- `RustStruct::generate_struct_definition_code`: the lines pushed for one
struct declaration, with the caller-supplied comment list.  `\x7b` and
`\x7d` are the brace characters. -/
def generate_struct_definition_code (st : RustStruct) (comments : List String) :
    List String :=
  comments.map (fun c => "// " ++ c)
    ++ ["type " ++ st.name ++ " struct \x7b"]
    ++ (st.fields.map (fun f =>
          f.comments.map (fun c => "    //" ++ c)
            ++ ["    " ++ rust_field_name_to_go f.var_name ++ " "
                  ++ go_var_type f.var_type ++ " " ++ json_tag f.var_name])).flatten
    ++ ["\x7d", ""]

/-- The single (multi-line) string pushed by
`RustStruct::generate_declare_metric_code`. -/
def declareStmtText (mvar name help : String) : String :=
  mvar ++ " = prometheus.NewGaugeVec(prometheus.GaugeOpts\x7b\n"
    ++ "            Namespace: fcMetricsNS,\n"
    ++ "            Name:      \"" ++ name ++ "\",\n"
    ++ "            Help:      \"" ++ help ++ "\",\n"
    ++ "        \x7d,\n"
    ++ "            []string\x7b\"item\"\x7d,\n"
    ++ "        )"

/-- `RustStruct::generate_declare_metric_code`: the statement followed by a
blank spacer line. -/
def generate_declare_metric_code (st : RustStruct) (name help : String) :
    List String :=
  [declareStmtText (metric_var_name st) name help, ""]

/-- `RustStruct::generate_register_code`. -/
def generate_register_code (st : RustStruct) : List String :=
  ["    prometheus.MustRegister(" ++ metric_var_name st ++ ")"]

/-- `RustStruct::generate_set_values_code`: a comment line naming the
struct, one `Set` statement per field, and a blank spacer line. -/
def generate_set_values_code (st : RustStruct) (field_name : String) :
    List String :=
  ("    // set metrics for " ++ st.name)
    :: st.fields.map (fun f =>
        "    " ++ metric_var_name st ++ ".WithLabelValues(\"" ++ f.var_name
          ++ "\").Set(float64(fm." ++ field_name ++ "."
          ++ rust_field_name_to_go f.var_name ++ "))")
    ++ [""]

/-- `struct Context` from main.rs: the four statement lists handed to the
template. -/
structure Context where
  metrics_var_declare_stmt : List String
  metrics_register_stmt : List String
  metrics_set_stmt : List String
  metrics_struct_declare_stmt : List String
deriving DecidableEq

/-- The body of the per-root-field loop in `parse_source_tree`: when the
field's `var_type` resolves in the map, append the four generated blocks
(declare / register / set use the root field's `var_name`, struct
redeclaration uses the root field's comments). -/
def lowerField (l : StructMap) (ctx : Context) (f : StructField) : Context :=
  match lookupStruct l f.var_type with
  | none => ctx
  | some metric_struct =>
    { metrics_var_declare_stmt :=
        ctx.metrics_var_declare_stmt
          ++ generate_declare_metric_code metric_struct f.var_name
              (rustTrim (String.intercalate " " metric_struct.comments))
      metrics_register_stmt :=
        ctx.metrics_register_stmt ++ generate_register_code metric_struct
      metrics_set_stmt :=
        ctx.metrics_set_stmt
          ++ generate_set_values_code metric_struct (rust_field_name_to_go f.var_name)
      metrics_struct_declare_stmt :=
        ctx.metrics_struct_declare_stmt
          ++ generate_struct_definition_code metric_struct f.comments }

/-- `fn parse_source_tree(struct_list: HashMap<String, RustStruct>) -> Context`:
look up the fixed root name; if absent all four lists stay empty; otherwise
emit the root's own struct declaration (with the root's own comments) and
run the per-field loop. -/
def parse_source_tree (l : StructMap) : Context :=
  match lookupStruct l "FirecrackerMetrics" with
  | none =>
    { metrics_var_declare_stmt := []
      metrics_register_stmt := []
      metrics_set_stmt := []
      metrics_struct_declare_stmt := [] }
  | some root_struct =>
    root_struct.fields.foldl (lowerField l)
      { metrics_var_declare_stmt := []
        metrics_register_stmt := []
        metrics_set_stmt := []
        metrics_struct_declare_stmt :=
          generate_struct_definition_code root_struct root_struct.comments }

/-- The metric groups the Schema Linker discovers: the root's fields, in
declaration order, paired with the struct their `var_type` resolves to in
the map; unresolved fields are dropped. -/
def metricGroups (l : StructMap) (fs : List StructField) :
    List (StructField × RustStruct) :=
  fs.filterMap (fun f => (lookupStruct l f.var_type).map (fun s => (f, s)))

/-- The block `lowerField` appends to `metrics_var_declare_stmt` for one
metric group. -/
def varDeclBlock (g : StructField × RustStruct) : List String :=
  generate_declare_metric_code g.2 g.1.var_name
    (rustTrim (String.intercalate " " g.2.comments))

/-- The block `lowerField` appends to `metrics_register_stmt` for one
metric group. -/
def registerBlock (g : StructField × RustStruct) : List String :=
  generate_register_code g.2

/-- The block `lowerField` appends to `metrics_set_stmt` for one metric
group. -/
def setBlock (g : StructField × RustStruct) : List String :=
  generate_set_values_code g.2 (rust_field_name_to_go g.1.var_name)

/-- The block `lowerField` appends to `metrics_struct_declare_stmt` for one
metric group: note it uses the root field's comments (`g.1.comments`), not
the sub-structure's own. -/
def structDeclBlock (g : StructField × RustStruct) : List String :=
  generate_struct_definition_code g.2 g.1.comments

/-- Newline-joined rendering of one template loop
`{{ for line in xs }}{line}\n{{ endfor }}`: each line followed by a
newline. -/
def renderLines (ls : List String) : String :=
  String.join (ls.map (fun l => l ++ "\n"))

/-- `fn render(context: Context)` with the fixed `TEMPLATE` from main.rs:
the template text with each `for` loop replaced by the newline-joined
statement list (tinytemplate drops the `{{ endfor }}` lines, which stand
alone; `\x7b` and `\x7d` are brace characters, escaped `\{` in the
template). -/
def render (context : Context) : String :=
  "// Copyright (c) 2020 xxx.yyy \n"
    ++ "//\n"
    ++ "// SPDX-License-Identifier: Apache-2.0\n"
    ++ "//\n"
    ++ "// WARNING: This file is auto-generated - DO NOT EDIT!\n"
    ++ "\n"
    ++ "package virtcontainers\n"
    ++ "\n"
    ++ "import (\n"
    ++ "    \"github.com/prometheus/client_golang/prometheus\"\n"
    ++ ")\n"
    ++ "\n"
    ++ "const fcMetricsNS = \"kata_firecracker\"\n"
    ++ "\n"
    ++ "// prometheus metrics Firecracker exposed.\n"
    ++ "var (\n"
    ++ renderLines context.metrics_var_declare_stmt
    ++ ")\n"
    ++ "\n"
    ++ "// registerFirecrackerMetrics register all metrics to prometheus.\n"
    ++ "func registerFirecrackerMetrics() \x7b\n"
    ++ renderLines context.metrics_register_stmt
    ++ "\x7d\n"
    ++ "\n"
    ++ "// updateFirecrackerMetrics update all metrics to the latest values.\n"
    ++ "func updateFirecrackerMetrics(fm *FirecrackerMetrics) \x7b\n"
    ++ renderLines context.metrics_set_stmt
    ++ "\x7d\n"
    ++ "\n"
    ++ renderLines context.metrics_struct_declare_stmt

/-- `enum GenerateError` from main.rs; the payloads of the three wrapped
errors are modelled by their display strings. -/
inductive GenerateError where
  | IncorrectUsage
  | ReadFile (e : String)
  | ParseError (e : String)
  | RenderError (e : String)
deriving DecidableEq

/-- `impl Display for GenerateError`. -/
def displayError : GenerateError → String
  | GenerateError.IncorrectUsage => "Usage: fc-metrics-generator path/to/filename.rs"
  | GenerateError.ReadFile e => "Failed to read file: " ++ e
  | GenerateError.ParseError e => "Failed to parse source file: " ++ e
  | GenerateError.RenderError e => "Failed to render source file: " ++ e

/-- `fn try_main()`, parameterised by the process argument list `argv`
(`env::args_os()`, first entry the program name) and by the two external
collaborators: `read` models `fs::read_to_string` and `parse` models
`syn::parse_file`.  The result is the text `render` prints on success;
`none` models a panic aborting the process inside the extraction step. -/
def try_main (argv : List String) (read : String → Except String String)
    (parse : String → Except String SynFile) :
    Option (Except GenerateError String) :=
  match argv.drop 1 with
  | [filepath] =>
    match read filepath with
    | Except.error e => some (Except.error (GenerateError.ReadFile e))
    | Except.ok code =>
      match parse code with
      | Except.error e => some (Except.error (GenerateError.ParseError e))
      | Except.ok ast =>
        match parse_source_code ast with
        | none => none
        | some struct_list =>
          some (Except.ok (render (parse_source_tree struct_list)))
  | _ => some (Except.error GenerateError.IncorrectUsage)

/-- `fn main()`: on success the rendered text is printed to stdout by
`println!` (which appends a newline) and the process exits 0; on error the
display string is written to stderr by `writeln!` (which appends a newline)
and the process exits 1.  The result is (exit code, stdout, stderr); `none`
models a panic abort. -/
def mainRun (argv : List String) (read : String → Except String String)
    (parse : String → Except String SynFile) :
    Option (Nat × String × String) :=
  match try_main argv read parse with
  | none => none
  | some (Except.ok out) => some (0, out ++ "\n", "")
  | some (Except.error e) => some (1, "", displayError e ++ "\n")

/-- The end-to-end pure pipeline from a parsed file to the rendered text
(`none` models the extraction panic): extraction, linking/lowering,
rendering. -/
def generateFromFile (f : SynFile) : Option String :=
  (parse_source_code f).map (fun struct_list => render (parse_source_tree struct_list))

/-- A well-formed doc attribute carrying text `t`, as `syn` prints it:
token stream `= "t"`. -/
def docAttr (t : String) : Attr :=
  { pathIdent := "doc", tokens := "= \"" ++ t ++ "\"" }

/-- Concrete input: a sub-structure `SubS` with its own doc comment and one
public `SharedMetric` field. -/
def subItem0 : ItemStruct :=
  { attrs := [docAttr "own comment A"]
    ident := "SubS"
    fields := SynFields.named
      [{ vis := Visibility.pub, ident := "cnt_total",
         ty := SynType.path "SharedMetric", attrs := [docAttr "counter doc"] }] }

/-- Concrete input: a root `FirecrackerMetrics` whose one public field
references `SubS` and carries its own (different) doc comment. -/
def rootItem0 : ItemStruct :=
  { attrs := [docAttr "root doc"]
    ident := "FirecrackerMetrics"
    fields := SynFields.named
      [{ vis := Visibility.pub, ident := "sub_metrics",
         ty := SynType.path "SubS", attrs := [docAttr "field comment B"] }] }

/-- Concrete input file for the end-to-end examples. -/
def file0 : SynFile :=
  { items := [Item.struct subItem0, Item.struct rootItem0] }

/-- The `StructField` extraction produces for the one field of
`subItem0`. -/
def cntField0 : StructField :=
  { var_name := "cnt_total", var_type := "SharedMetric",
    comments := ["counter doc"] }

/-- The `RustStruct` extraction produces for `subItem0`. -/
def subS0 : RustStruct :=
  { comments := ["own comment A"], name := "SubS", fields := [cntField0] }

/-- The `RustStruct` extraction produces for `rootItem0`. -/
def root0 : RustStruct :=
  { comments := ["root doc"], name := "FirecrackerMetrics",
    fields := [{ var_name := "sub_metrics", var_type := "SubS",
                 comments := ["field comment B"] }] }

/-- The mapping extraction produces for `file0`. -/
def map0 : StructMap := [("SubS", subS0), ("FirecrackerMetrics", root0)]

/-- Concrete input whose struct carries a bare `#[doc]` attribute: `syn`
parses it fine (empty token stream), but `strip_comment` panics on it. -/
def badDocFile : SynFile :=
  { items := [Item.struct
      { attrs := [{ pathIdent := "doc", tokens := "" }]
        ident := "S"
        fields := SynFields.named
          [{ vis := Visibility.pub, ident := "a",
             ty := SynType.path "u64", attrs := [] }] }] }

/-- Concrete input: a struct declaring one named field that is not public,
so every field is skipped. -/
def emptyFieldsItem : ItemStruct :=
  { attrs := []
    ident := "EmptySub"
    fields := SynFields.named
      [{ vis := Visibility.other, ident := "hidden",
         ty := SynType.path "u64", attrs := [] }] }

/-- Concrete input: a root referencing `EmptySub`. -/
def rootRefEmptyItem : ItemStruct :=
  { attrs := []
    ident := "FirecrackerMetrics"
    fields := SynFields.named
      [{ vis := Visibility.pub, ident := "empty_grp",
         ty := SynType.path "EmptySub", attrs := [] }] }

/-- Concrete input file where the root's one group has no retained
fields. -/
def file10 : SynFile :=
  { items := [Item.struct emptyFieldsItem, Item.struct rootRefEmptyItem] }

/-- A file-read oracle that always fails. -/
def readFail : String → Except String String := fun _ => Except.error "io"

/-- A parse oracle that always fails. -/
def parseFail : String → Except String SynFile := fun _ => Except.error "syn"

/-- A file-read oracle returning fixed source text. -/
def readOk0 : String → Except String String := fun _ => Except.ok "src"

/-- A parse oracle returning `file0`. -/
def parseOk0 : String → Except String SynFile := fun _ => Except.ok file0

/-- The `RustStruct` extraction produces for `emptyFieldsItem`: inserted
with an empty field list. -/
def emptySub10 : RustStruct :=
  { comments := [], name := "EmptySub", fields := [] }

/-- The `RustStruct` extraction produces for `rootRefEmptyItem`. -/
def root10 : RustStruct :=
  { comments := [], name := "FirecrackerMetrics",
    fields := [{ var_name := "empty_grp", var_type := "EmptySub",
                 comments := [] }] }

/-- The mapping extraction produces for `file10`. -/
def map10 : StructMap := [("EmptySub", emptySub10), ("FirecrackerMetrics", root10)]

/-- The text `render` produces when all four statement lists are empty: the
fixed skeleton. -/
def emptySkeletonText : String :=
  "// Copyright (c) 2020 xxx.yyy \n"
    ++ "//\n"
    ++ "// SPDX-License-Identifier: Apache-2.0\n"
    ++ "//\n"
    ++ "// WARNING: This file is auto-generated - DO NOT EDIT!\n"
    ++ "\n"
    ++ "package virtcontainers\n"
    ++ "\n"
    ++ "import (\n"
    ++ "    \"github.com/prometheus/client_golang/prometheus\"\n"
    ++ ")\n"
    ++ "\n"
    ++ "const fcMetricsNS = \"kata_firecracker\"\n"
    ++ "\n"
    ++ "// prometheus metrics Firecracker exposed.\n"
    ++ "var (\n"
    ++ ")\n"
    ++ "\n"
    ++ "// registerFirecrackerMetrics register all metrics to prometheus.\n"
    ++ "func registerFirecrackerMetrics() \x7b\n"
    ++ "\x7d\n"
    ++ "\n"
    ++ "// updateFirecrackerMetrics update all metrics to the latest values.\n"
    ++ "func updateFirecrackerMetrics(fm *FirecrackerMetrics) \x7b\n"
    ++ "\x7d\n"
    ++ "\n"

theorem join_append (l₁ l₂ : List String) :
    String.join (l₁ ++ l₂) = String.join l₁ ++ String.join l₂ := by
  apply String.ext
  simp [String.join_eq, String.data_append]

theorem splitOnChar_ne_nil (c : Char) (xs : List Char) : splitOnChar c xs ≠ [] := by
  induction xs with
  | nil => simp [splitOnChar]
  | cons x xs ih =>
    by_cases h : x = c
    · simp [splitOnChar, h]
    · simp only [splitOnChar, if_neg h]
      cases hs : splitOnChar c xs with
      | nil => simp
      | cons seg segs => simp

theorem splitOnChar_cons_ne (c x : Char) (xs : List Char) (h : ¬x = c) :
    splitOnChar c (x :: xs) =
      match splitOnChar c xs with
      | [] => [[x]]
      | seg :: segs => (x :: seg) :: segs := by
  simp [splitOnChar, if_neg h]

theorem splitOnChar_append (c : Char) (xs ys : List Char) :
    splitOnChar c (xs ++ c :: ys) = splitOnChar c xs ++ splitOnChar c ys := by
  induction xs with
  | nil => simp [splitOnChar]
  | cons x xs ih =>
    by_cases h : x = c
    · simp [splitOnChar, h, ih]
    · cases hs : splitOnChar c xs with
      | nil => exact absurd hs (splitOnChar_ne_nil c xs)
      | cons seg segs =>
        rw [List.cons_append, splitOnChar_cons_ne c x (xs ++ c :: ys) h,
          splitOnChar_cons_ne c x xs h, ih, hs, List.cons_append]
        rfl

theorem lower_loop_spec (l : StructMap) (fs : List StructField) (ctx : Context) :
    fs.foldl (lowerField l) ctx =
      { metrics_var_declare_stmt :=
          ctx.metrics_var_declare_stmt ++ ((metricGroups l fs).map varDeclBlock).flatten
        metrics_register_stmt :=
          ctx.metrics_register_stmt ++ ((metricGroups l fs).map registerBlock).flatten
        metrics_set_stmt :=
          ctx.metrics_set_stmt ++ ((metricGroups l fs).map setBlock).flatten
        metrics_struct_declare_stmt :=
          ctx.metrics_struct_declare_stmt
            ++ ((metricGroups l fs).map structDeclBlock).flatten } := by
  induction fs generalizing ctx with
  | nil => simp [metricGroups]
  | cons f fs ih =>
    rw [List.foldl_cons, ih]
    cases h : lookupStruct l f.var_type with
    | none =>
      simp [lowerField, h, metricGroups, List.filterMap_cons]
    | some ms =>
      simp [lowerField, h, metricGroups, List.filterMap_cons, varDeclBlock,
        registerBlock, setBlock, structDeclBlock]

theorem parse_tree_of_root (l : StructMap) (root : RustStruct)
    (h : lookupStruct l "FirecrackerMetrics" = some root) :
    parse_source_tree l =
      { metrics_var_declare_stmt :=
          ((metricGroups l root.fields).map varDeclBlock).flatten
        metrics_register_stmt :=
          ((metricGroups l root.fields).map registerBlock).flatten
        metrics_set_stmt :=
          ((metricGroups l root.fields).map setBlock).flatten
        metrics_struct_declare_stmt :=
          generate_struct_definition_code root root.comments
            ++ ((metricGroups l root.fields).map structDeclBlock).flatten } := by
  have hstep : parse_source_tree l =
      root.fields.foldl (lowerField l)
        { metrics_var_declare_stmt := []
          metrics_register_stmt := []
          metrics_set_stmt := []
          metrics_struct_declare_stmt :=
            generate_struct_definition_code root root.comments } := by
    unfold parse_source_tree
    rw [h]
  rw [hstep, lower_loop_spec]
  simp

theorem parseFields_sound (nts : List NamedField) (fs : List StructField)
    (h : parseFields nts = some fs) :
    ∀ fd ∈ fs, ∃ nt ∈ nts,
      nt.vis = Visibility.pub ∧ nt.ty = SynType.path fd.var_type ∧
      fd.var_name = nt.ident := by
  induction nts generalizing fs with
  | nil =>
    simp [parseFields] at h
    subst h
    simp
  | cons nt rest ih =>
    cases hv : nt.vis with
    | other =>
      simp only [parseFields, hv] at h
      intro fd hfd
      obtain ⟨nt', hnt', hprops⟩ := ih fs h fd hfd
      exact ⟨nt', List.mem_cons_of_mem _ hnt', hprops⟩
    | pub =>
      cases ht : nt.ty with
      | other =>
        simp only [parseFields, hv, ht] at h
        intro fd hfd
        obtain ⟨nt', hnt', hprops⟩ := ih fs h fd hfd
        exact ⟨nt', List.mem_cons_of_mem _ hnt', hprops⟩
      | path seg =>
        cases hdc : docComments nt.attrs with
        | none => simp [parseFields, hv, ht, hdc] at h
        | some cs =>
          cases hrest : parseFields rest with
          | none => simp [parseFields, hv, ht, hdc, hrest] at h
          | some fs' =>
            simp only [parseFields, hv, ht, hdc, hrest, Option.map_some',
              Option.some.injEq] at h
            subst h
            intro fd hfd
            rcases List.mem_cons.mp hfd with hfd | hfd
            · subst hfd
              exact ⟨nt, List.mem_cons_self _ _, hv, ht, rfl⟩
            · obtain ⟨nt', hnt', hprops⟩ := ih fs' hrest fd hfd
              exact ⟨nt', List.mem_cons_of_mem _ hnt', hprops⟩

theorem mem_insertStruct (l : StructMap) (k : String) (v : RustStruct)
    (p : String × RustStruct) (h : p ∈ insertStruct l k v) :
    p = (k, v) ∨ p ∈ l := by
  induction l with
  | nil =>
    simp [insertStruct] at h
    exact Or.inl h
  | cons q rest ih =>
    by_cases hk : q.1 = k
    · simp only [insertStruct, hk, if_pos rfl] at h
      rcases List.mem_cons.mp h with h | h
      · exact Or.inl h
      · exact Or.inr (List.mem_cons_of_mem _ h)
    · simp only [insertStruct] at h
      rw [if_neg hk] at h
      rcases List.mem_cons.mp h with h | h
      · exact Or.inr (h ▸ List.mem_cons_self _ _)
      · rcases ih h with h | h
        · exact Or.inl h
        · exact Or.inr (List.mem_cons_of_mem _ h)

theorem parseItems_sound (items : List Item) (acc l : StructMap)
    (h : parseItems acc items = some l) :
    ∀ p ∈ l, p ∈ acc ∨ ∃ attrs nts,
      Item.struct { attrs := attrs, ident := p.1, fields := SynFields.named nts }
          ∈ items ∧
        p.2.name = p.1 ∧ docComments attrs = some p.2.comments ∧
        parseFields nts = some p.2.fields := by
  induction items generalizing acc with
  | nil =>
    simp [parseItems] at h
    subst h
    intro p hp
    exact Or.inl hp
  | cons it rest ih =>
    cases it with
    | other =>
      simp only [parseItems] at h
      intro p hp
      rcases ih acc h p hp with hl | ⟨attrs, nts, hmem, hrest⟩
      · exact Or.inl hl
      · exact Or.inr ⟨attrs, nts, List.mem_cons_of_mem _ hmem, hrest⟩
    | struct si =>
      cases hdc : docComments si.attrs with
      | none => simp [parseItems, hdc] at h
      | some scs =>
        cases hsf : si.fields with
        | other =>
          simp only [parseItems, hdc, hsf] at h
          intro p hp
          rcases ih acc h p hp with hl | ⟨attrs, nts, hmem, hrest⟩
          · exact Or.inl hl
          · exact Or.inr ⟨attrs, nts, List.mem_cons_of_mem _ hmem, hrest⟩
        | named nts =>
          simp only [parseItems, hdc, hsf] at h
          by_cases hlen : nts.length = 0
          · rw [if_pos hlen] at h
            intro p hp
            rcases ih acc h p hp with hl | ⟨attrs, nts', hmem, hrest⟩
            · exact Or.inl hl
            · exact Or.inr ⟨attrs, nts', List.mem_cons_of_mem _ hmem, hrest⟩
          · rw [if_neg hlen] at h
            cases hpf : parseFields nts with
            | none => simp [hpf] at h
            | some fs =>
              simp only [hpf] at h
              intro p hp
              rcases ih _ h p hp with hins | ⟨attrs, nts', hmem, hrest⟩
              · rcases mem_insertStruct _ _ _ _ hins with heq | hacc
                · subst heq
                  refine Or.inr ⟨si.attrs, nts, ?_, rfl, hdc, hpf⟩
                  have hsi : si = ItemStruct.mk si.attrs si.ident (SynFields.named nts) := by
                    cases si
                    simp_all
                  exact hsi ▸ List.mem_cons_self _ _
                · exact Or.inl hacc
              · exact Or.inr ⟨attrs, nts', List.mem_cons_of_mem _ hmem, hrest⟩

theorem parseFields_skip_all (nts : List NamedField)
    (h : ∀ nt ∈ nts, nt.vis = Visibility.other ∨ nt.ty = SynType.other) :
    parseFields nts = some [] := by
  induction nts with
  | nil => rfl
  | cons nt rest ih =>
    have hrest := ih (fun x hx => h x (List.mem_cons_of_mem _ hx))
    rcases h nt (List.mem_cons_self _ _) with hv | ht
    · simp [parseFields, hv, hrest]
    · cases hv : nt.vis with
      | other => simp [parseFields, hv, hrest]
      | pub => simp [parseFields, hv, ht, hrest]

/-- Claim C1 (counterexample): on the concrete file `file0` — whose
sub-structure `SubS` carries its own doc comment "own comment A" while the
root field referencing it carries "field comment B" — the emitted struct
redeclarations are NOT the root's declaration followed by the
sub-structure's declaration preceded by the sub-structure's own comments:
the generator passes the root field's comments instead. -/
theorem structRedecl_own_comments_refuted :
    parse_source_code file0 = some map0 ∧
      (parse_source_tree map0).metrics_struct_declare_stmt ≠
        generate_struct_definition_code root0 root0.comments
          ++ generate_struct_definition_code subS0 subS0.comments := by
  constructor
  · decide
  · decide

/-- Claim C1 (amended): for every metric group, the struct redeclaration
emitted for the group's sub-structure is preceded by the ROOT FIELD's doc
comments (each rendered as a line-comment), not by the sub-structure's own;
the root's redeclaration is preceded by the root `StructDefinition`'s own
comments. -/
theorem structRedecl_uses_root_field_comments (l : StructMap) (root : RustStruct)
    (h : lookupStruct l "FirecrackerMetrics" = some root) :
    (parse_source_tree l).metrics_struct_declare_stmt =
      generate_struct_definition_code root root.comments
        ++ ((metricGroups l root.fields).map
              (fun g => generate_struct_definition_code g.2 g.1.comments)).flatten := by
  rw [parse_tree_of_root l root h]
  rfl

/-- Witness for `structRedecl_uses_root_field_comments` at the concrete
mapping `map0`. -/
theorem structRedecl_uses_root_field_comments_witness :
    (parse_source_tree map0).metrics_struct_declare_stmt =
      generate_struct_definition_code root0 root0.comments
        ++ ((metricGroups map0 root0.fields).map
              (fun g => generate_struct_definition_code g.2 g.1.comments)).flatten :=
  structRedecl_uses_root_field_comments map0 root0 (by decide)

/-- Claim C2: every field retained in an extracted structure originates
from a named field of a struct item of the input file that is publicly
visible and has a simple path type whose leading segment is the retained
`var_type`; non-public and non-path-typed fields are omitted, and since the
generated struct declarations and update statements are computed from the
retained field list alone, such fields never appear in them. -/
theorem extracted_fields_are_public_path (f : SynFile) (l : StructMap)
    (h : parse_source_code f = some l) :
    ∀ nm st, (nm, st) ∈ l → ∀ fd ∈ st.fields,
      ∃ attrs nts,
        Item.struct { attrs := attrs, ident := nm, fields := SynFields.named nts }
            ∈ f.items ∧
          parseFields nts = some st.fields ∧
          ∃ nt ∈ nts, nt.vis = Visibility.pub ∧ nt.ty = SynType.path fd.var_type ∧
            fd.var_name = nt.ident := by
  intro nm st hmem fd hfd
  rcases parseItems_sound f.items [] l h (nm, st) hmem with
    hacc | ⟨attrs, nts, hit, _, _, hpf⟩
  · simp at hacc
  · exact ⟨attrs, nts, hit, hpf, parseFields_sound nts st.fields hpf fd hfd⟩

/-- Witness for `extracted_fields_are_public_path` at the concrete file
`file0` and its extracted struct `SubS`. -/
theorem extracted_fields_are_public_path_witness :
    ∃ attrs nts,
      Item.struct { attrs := attrs, ident := "SubS", fields := SynFields.named nts }
          ∈ file0.items ∧
        parseFields nts = some subS0.fields ∧
        ∃ nt ∈ nts, nt.vis = Visibility.pub ∧
          nt.ty = SynType.path cntField0.var_type ∧
          cntField0.var_name = nt.ident :=
  extracted_fields_are_public_path file0 map0 (by decide) "SubS" subS0
    (by decide) cntField0 (by decide)

/-- Claim C3 (counterexample): schema extraction is NOT total and malformed
doc decorators are NOT ignored.  On `badDocFile` — a syntactically valid
file whose struct carries a bare `#[doc]` attribute (empty token stream) —
`strip_comment` panics (`replace_range` out of bounds), aborting the run;
and a `#[doc(hidden)]` decorator is not ignored but mangled into the
comment text "dden". -/
theorem doc_decorator_not_ignored_refuted :
    parse_source_code badDocFile = none ∧
      docComments [{ pathIdent := "doc", tokens := "(hidden)" }] = some ["dden"] := by
  constructor
  · decide
  · decide

/-- Claim C3 (amended): `strip_comment` recovers the inner text of every
well-formed decorator token form `= "<text>"`; it fails (a panic, aborting
extraction) exactly on token strings shorter than four characters; any
other doc decorator is neither fatal nor ignored — it is included after
dropping its last character and first three characters, as the
`#[doc(hidden)]` example shows. -/
theorem strip_comment_behavior :
    (∀ t : String, strip_comment ("= \"" ++ t ++ "\"") = some t) ∧
    (∀ s : String, strip_comment s = none ↔ s.data.length < 4) ∧
    docComments [{ pathIdent := "doc", tokens := "(hidden)" }] = some ["dden"] := by
  refine ⟨?_, ?_, by decide⟩
  · intro t
    have hdata : ("= \"" ++ t ++ "\"").data = ('=' :: ' ' :: '"' :: t.data) ++ ['"'] := by
      rw [String.data_append, String.data_append, List.append_assoc]
      rfl
    simp only [strip_comment]
    rw [hdata, List.dropLast_concat]
    rw [if_neg (by simp)]
    rfl
  · intro s
    simp only [strip_comment]
    by_cases hc : s.data.dropLast.length < 3
    · rw [if_pos hc]
      simp only [List.length_dropLast] at hc
      simp only [true_iff, eq_self_iff_true]
      omega
    · rw [if_neg hc]
      simp only [List.length_dropLast] at hc
      simp only [reduceCtorEq, false_iff]
      omega

set_option maxRecDepth 4096 in
/-- Claim C4: when the fixed root name "FirecrackerMetrics" is absent from
the extracted mapping, all four statement lists are empty and rendering
still produces the fixed skeleton text (no error). -/
theorem missing_root_empty_output (l : StructMap)
    (h : lookupStruct l "FirecrackerMetrics" = none) :
    parse_source_tree l =
      { metrics_var_declare_stmt := [], metrics_register_stmt := [],
        metrics_set_stmt := [], metrics_struct_declare_stmt := [] } ∧
      render (parse_source_tree l) = emptySkeletonText := by
  have h1 : parse_source_tree l =
      { metrics_var_declare_stmt := [], metrics_register_stmt := [],
        metrics_set_stmt := [], metrics_struct_declare_stmt := [] } := by
    unfold parse_source_tree
    rw [h]
  refine ⟨h1, ?_⟩
  rw [h1]
  decide

/-- Witness for `missing_root_empty_output` at the empty mapping. -/
theorem missing_root_empty_output_witness :
    parse_source_tree [] =
      { metrics_var_declare_stmt := [], metrics_register_stmt := [],
        metrics_set_stmt := [], metrics_struct_declare_stmt := [] } ∧
      render (parse_source_tree []) = emptySkeletonText :=
  missing_root_empty_output [] (by decide)

/-- Claim C5: one variable-declaration statement per metric group (plus a
cosmetic blank spacer line), whose instance variable is the sub-structure's
name with its first character lowercased, whose metric name is the root
field's `var_name`, and whose help text is the sub-structure's comments
joined with single spaces and trimmed; the single label dimension with the
fixed literal name "item" is part of the `declareStmtText` template. -/
theorem one_var_decl_per_group (l : StructMap) (root : RustStruct)
    (h : lookupStruct l "FirecrackerMetrics" = some root) :
    (parse_source_tree l).metrics_var_declare_stmt =
      ((metricGroups l root.fields).map (fun g =>
        [declareStmtText (to_lowercase g.2.name) g.1.var_name
            (rustTrim (String.intercalate " " g.2.comments)), ""])).flatten := by
  rw [parse_tree_of_root l root h]
  rfl

/-- Witness for `one_var_decl_per_group` at the concrete mapping `map0`. -/
theorem one_var_decl_per_group_witness :
    (parse_source_tree map0).metrics_var_declare_stmt =
      ((metricGroups map0 root0.fields).map (fun g =>
        [declareStmtText (to_lowercase g.2.name) g.1.var_name
            (rustTrim (String.intercalate " " g.2.comments)), ""])).flatten :=
  one_var_decl_per_group map0 root0 (by decide)

/-- Claim C6: the member-name conversion splits on underscore, uppercases
each segment's first character and concatenates with no separator — it is
a homomorphism over an underscore join, "foo_bar_baz" maps to "FooBarBaz"
and the single-segment "foo" maps to "Foo". -/
theorem field_name_conversion :
    (∀ a b : String, rust_field_name_to_go (a ++ "_" ++ b) =
        rust_field_name_to_go a ++ rust_field_name_to_go b) ∧
    rust_field_name_to_go "foo_bar_baz" = "FooBarBaz" ∧
    rust_field_name_to_go "foo" = "Foo" := by
  refine ⟨?_, by decide, by decide⟩
  intro a b
  have hdata : (a ++ "_" ++ b).data = a.data ++ '_' :: b.data := by
    rw [String.data_append, String.data_append, List.append_assoc]
    rfl
  unfold rust_field_name_to_go splitUnderscore
  rw [hdata, splitOnChar_append, List.map_append, List.map_append, join_append]

/-- Claim C7: the type-rename table maps exactly "SharedMetric" to
"uint64" and leaves every other type name unchanged. -/
theorem type_rename_table :
    go_var_type "SharedMetric" = "uint64" ∧
      ∀ s : String, s ≠ "SharedMetric" → go_var_type s = s := by
  refine ⟨by decide, ?_⟩
  intro s hs
  simp [go_var_type, hs]

/-- Witness for `type_rename_table` at the concrete type name "u64". -/
theorem type_rename_table_witness : go_var_type "u64" = "u64" :=
  type_rename_table.2 "u64" (by decide)

/-- Claim C8: the generator is deterministic — the pipeline from parsed
input to output text is a pure function (the embedding is total and
state-free; the Rust code iterates only vectors in declaration order and
never iterates the hash map), so identical inputs yield byte-identical
output. -/
theorem generator_deterministic (a b : SynFile) (h : a = b) :
    generateFromFile a = generateFromFile b := by
  rw [h]

/-- Witness for `generator_deterministic` at the concrete file `file0`. -/
theorem generator_deterministic_witness :
    generateFromFile file0 = generateFromFile file0 :=
  generator_deterministic file0 file0 rfl

/-- Claim C9: with zero or more than one positional argument the program
exits 1 with the usage message on stderr; with exactly one argument and a
successful pipeline it prints the rendered text to stdout and exits 0. -/
theorem cli_usage_and_success :
    (∀ (argv : List String) (read : String → Except String String)
        (parse : String → Except String SynFile),
      (argv.drop 1).length ≠ 1 →
      mainRun argv read parse =
        some (1, "", "Usage: fc-metrics-generator path/to/filename.rs\n")) ∧
    (∀ (argv : List String) (p : String) (read : String → Except String String)
        (parse : String → Except String SynFile) (code : String) (ast : SynFile)
        (struct_list : StructMap),
      argv.drop 1 = [p] → read p = Except.ok code → parse code = Except.ok ast →
      parse_source_code ast = some struct_list →
      mainRun argv read parse =
        some (0, render (parse_source_tree struct_list) ++ "\n", "")) := by
  constructor
  · intro argv read parse h
    have ht : try_main argv read parse =
        some (Except.error GenerateError.IncorrectUsage) := by
      unfold try_main
      cases hd : argv.drop 1 with
      | nil => rfl
      | cons x xs =>
        cases xs with
        | nil => rw [hd] at h; simp at h
        | cons y ys => rfl
    unfold mainRun
    rw [ht]
    rfl
  · intro argv p read parse code ast struct_list hd hr hp hpc
    have ht : try_main argv read parse =
        some (Except.ok (render (parse_source_tree struct_list))) := by
      simp only [try_main, hd, hr, hp, hpc]
    unfold mainRun
    rw [ht]

/-- Witness for `cli_usage_and_success`: a zero-argument run fails with the
usage message, and a one-argument run with successful read/parse prints the
rendered text for `map0`. -/
theorem cli_usage_and_success_witness :
    mainRun ["prog"] readFail parseFail =
        some (1, "", "Usage: fc-metrics-generator path/to/filename.rs\n") ∧
      mainRun ["prog", "metrics.rs"] readOk0 parseOk0 =
        some (0, render (parse_source_tree map0) ++ "\n", "") :=
  ⟨cli_usage_and_success.1 ["prog"] readFail parseFail (by decide),
   cli_usage_and_success.2 ["prog", "metrics.rs"] "metrics.rs" readOk0 parseOk0
     "src" file0 map0 (by decide) rfl rfl (by decide)⟩

/-- Claim C10: a structure whose named fields are all skipped (not public,
or not a simple path type) is still extracted with an empty field list —
`file10` shows the insertion concretely — and when the root references such
a structure the generator still emits its variable-declaration and
registration statements, an update block that is just the comment line
(plus the cosmetic blank spacer), and a struct redeclaration with no member
lines; the registration and update-comment lines do appear in the final
statement lists. -/
theorem empty_group_still_generated :
    (∀ nts : List NamedField, nts ≠ [] →
      (∀ nt ∈ nts, nt.vis = Visibility.other ∨ nt.ty = SynType.other) →
      parseFields nts = some []) ∧
    parse_source_code file10 = some map10 ∧
    (∀ (l : StructMap) (root : RustStruct) (f : StructField) (ms : RustStruct),
      lookupStruct l "FirecrackerMetrics" = some root →
      (f, ms) ∈ metricGroups l root.fields → ms.fields = [] →
      varDeclBlock (f, ms) =
          [declareStmtText (to_lowercase ms.name) f.var_name
            (rustTrim (String.intercalate " " ms.comments)), ""] ∧
        registerBlock (f, ms) =
          ["    prometheus.MustRegister(" ++ to_lowercase ms.name ++ ")"] ∧
        setBlock (f, ms) = ["    // set metrics for " ++ ms.name, ""] ∧
        structDeclBlock (f, ms) =
          f.comments.map (fun c => "// " ++ c)
            ++ ["type " ++ ms.name ++ " struct \x7b", "\x7d", ""] ∧
        ("    prometheus.MustRegister(" ++ to_lowercase ms.name ++ ")")
            ∈ (parse_source_tree l).metrics_register_stmt ∧
        ("    // set metrics for " ++ ms.name)
            ∈ (parse_source_tree l).metrics_set_stmt) := by
  refine ⟨fun nts _ h => parseFields_skip_all nts h, by decide, ?_⟩
  intro l root f ms hroot hg hms
  have hreg : registerBlock (f, ms) =
      ["    prometheus.MustRegister(" ++ to_lowercase ms.name ++ ")"] := rfl
  have hset : setBlock (f, ms) = ["    // set metrics for " ++ ms.name, ""] := by
    simp [setBlock, generate_set_values_code, hms, metric_var_name]
  have hstruct : structDeclBlock (f, ms) =
      f.comments.map (fun c => "// " ++ c)
        ++ ["type " ++ ms.name ++ " struct \x7b", "\x7d", ""] := by
    simp [structDeclBlock, generate_struct_definition_code, hms]
  refine ⟨rfl, hreg, hset, hstruct, ?_, ?_⟩
  · rw [parse_tree_of_root l root hroot]
    exact List.mem_flatten.mpr
      ⟨registerBlock (f, ms), List.mem_map_of_mem _ hg, by rw [hreg]; simp⟩
  · rw [parse_tree_of_root l root hroot]
    exact List.mem_flatten.mpr
      ⟨setBlock (f, ms), List.mem_map_of_mem _ hg, by rw [hset]; simp⟩

/-- Witness for `empty_group_still_generated`: the all-skipped field list
of `emptyFieldsItem` extracts to an empty field list, and the registration
statement for the empty group of `map10` appears in the generated
registration list. -/
theorem empty_group_still_generated_witness :
    parseFields [{ vis := Visibility.other, ident := "hidden",
                   ty := SynType.path "u64", attrs := [] }] = some [] ∧
      ("    prometheus.MustRegister(" ++ to_lowercase emptySub10.name ++ ")")
          ∈ (parse_source_tree map10).metrics_register_stmt :=
  ⟨empty_group_still_generated.1
      [{ vis := Visibility.other, ident := "hidden",
           ty := SynType.path "u64", attrs := [] }] (by decide) (by decide),
   (empty_group_still_generated.2.2 map10 root10
      { var_name := "empty_grp", var_type := "EmptySub", comments := [] }
      emptySub10 (by decide) (by decide) rfl).2.2.2.2.1⟩

